import Mathlib

/-
Verification of the observability-stack Rust sources:
  src/.../rust/src/services/user_service.rs  (UserService, get_user_by_id, fetch_user_from_db)
  src/.../rust/src/telemetry.rs              (init_tracer, shutdown)

The span API calls made by the code are embedded as an explicit operation
trace; the process-wide tracer registry of the opentelemetry library is not
part of this repository and is modelled from the spec where indicated.
-/

namespace Obs

/-- Attribute value attached to a span via KeyValue (string or boolean in this code). -/
inductive AttrValue where
  | str (s : String)
  | bool (b : Bool)
deriving Repr, DecidableEq

/-- Span status: Unset by default, Ok, or Error carrying a message. -/
inductive SpanStatus where
  | unset
  | ok
  | error (message : String)
deriving Repr, DecidableEq

/-- One operation performed on a span, in the order the code performs them. -/
inductive SpanOp where
  | start (name : String)
  | setAttribute (key : String) (value : AttrValue)
  | addEvent (name : String)
  | setStatus (s : SpanStatus)
  | recordException (message : String)
  | endSpan
deriving Repr, DecidableEq

/-- User record from user_service.rs. -/
structure User where
  id : String
  name : String
  email : String
deriving Repr, DecidableEq

/-- ServiceError record from user_service.rs. -/
structure ServiceError where
  message : String
deriving Repr, DecidableEq

/-- Static resource identity built by init_tracer from its three arguments. -/
structure ResourceDescriptor where
  service_name : String
  service_version : String
  environment : String
deriving Repr, DecidableEq

/-- Tracer provider built by init_tracer: an OTLP exporter endpoint plus the resource. -/
structure TracerProvider where
  endpoint : String
  resource : ResourceDescriptor
deriving Repr, DecidableEq

/-- Process-wide mutable state touched by telemetry.rs: the installed tracer
provider and the installed subscriber log filter. -/
structure GlobalState where
  tracerProvider : Option TracerProvider
  subscriberFilter : Option String
deriving Repr, DecidableEq

/-- State of a process in which bootstrap (init_tracer) has never run. -/
def uninitializedState : GlobalState :=
  { tracerProvider := none, subscriberFilter := none }

/-- Modelled from the spec: global::set_tracer_provider of the opentelemetry
library (not part of this repository) installs the provider as process-wide
state, replacing any prior installation (last-write-wins, no error). -/
def set_tracer_provider (st : GlobalState) (p : TracerProvider) : GlobalState :=
  { st with tracerProvider := some p }

/-- A tracer handle as returned by the global registry: either backed by the
installed provider or a no-op tracer. -/
inductive Tracer where
  | noop
  | active (provider : TracerProvider)
deriving Repr, DecidableEq

/-- Modelled from the spec: global::tracer of the opentelemetry library (not
part of this repository) returns a tracer backed by the installed provider,
or a no-op tracer when bootstrap never ran; it never panics. -/
def global_tracer (st : GlobalState) (_tracerName : String) : Tracer :=
  match st.tracerProvider with
  | none => Tracer.noop
  | some p => Tracer.active p

/-- Default OTLP endpoint hardcoded in telemetry.rs. -/
def default_otlp_endpoint : String := "http://localhost:4318/v1/traces"

/-- Embedding of init_tracer from telemetry.rs. The configuration source is
the process environment, passed as a lookup function. The function reads
OTEL_EXPORTER_OTLP_ENDPOINT with a fixed fallback, builds the provider with
the resource descriptor, installs it process-wide, installs the subscriber
with an environment-derived filter defaulting to "info", and returns Ok. -/
def init_tracer (env : String → Option String) (st : GlobalState)
    (service_name : String) (service_version : String) (environment : String) :
    Except String GlobalState :=
  let otlp_endpoint := (env "OTEL_EXPORTER_OTLP_ENDPOINT").getD default_otlp_endpoint
  let tracer_provider : TracerProvider :=
    { endpoint := otlp_endpoint
      resource :=
        { service_name := service_name
          service_version := service_version
          environment := environment } }
  let st1 := set_tracer_provider st tracer_provider
  let st2 := { st1 with subscriberFilter := some ((env "RUST_LOG").getD "info") }
  Except.ok st2

/-- A structured error log line as emitted by the error macro in
user_service.rs: the fixed message plus the error field value. -/
structure LogRecord where
  message : String
  error_field : String
deriving Repr, DecidableEq

/-- Everything observable about one call to get_user_by_id: the returned
result, the sequence of span operations performed, the structured error logs
emitted, the tracer handle obtained, and the arguments passed to the wrapped
fetch operation. -/
structure CallOutcome where
  result : Except ServiceError User
  ops : List SpanOp
  errorLogs : List LogRecord
  tracer : Tracer
  fetchCalls : List String

/-- Embedding of UserService::get_user_by_id from user_service.rs,
parameterized by the wrapped asynchronous operation (fetch). The span
operations appear in exactly the order the source performs them: start,
two attributes, one event, then on success a found attribute, status Ok and
end, or on failure status Error, an exception record, one error log and end. -/
def get_user_by_id (st : GlobalState) (fetch : String → Except ServiceError User)
    (user_id : String) : CallOutcome :=
  let tracer := global_tracer st "user-service"
  let entryOps : List SpanOp :=
    [SpanOp.start "getUserById",
     SpanOp.setAttribute "user.id" (AttrValue.str user_id),
     SpanOp.setAttribute "operation.type" (AttrValue.str "read"),
     SpanOp.addEvent "Fetching user from database"]
  match fetch user_id with
  | Except.ok user =>
      { result := Except.ok user
        ops := entryOps ++
          [SpanOp.setAttribute "user.found" (AttrValue.bool true),
           SpanOp.setStatus SpanStatus.ok,
           SpanOp.endSpan]
        errorLogs := []
        tracer := tracer
        fetchCalls := [user_id] }
  | Except.error e =>
      { result := Except.error e
        ops := entryOps ++
          [SpanOp.setStatus (SpanStatus.error e.message),
           SpanOp.recordException e.message,
           SpanOp.endSpan]
        errorLogs := [{ message := "Failed to fetch user", error_field := e.message }]
        tracer := tracer
        fetchCalls := [user_id] }

/-- Embedding of UserService::fetch_user_from_db from user_service.rs. The
simulated database delay (tokio sleep) has no observable effect beyond time
passing and is dropped; the function then unconditionally returns Ok with a
fixed name and email and the given id. -/
def fetch_user_from_db (user_id : String) : Except ServiceError User :=
  Except.ok { id := user_id, name := "John Doe", email := "john@example.com" }

/-- Number of span-start operations in a trace. -/
def countStarts (ops : List SpanOp) : Nat :=
  (ops.filter fun op => match op with | SpanOp.start _ => true | _ => false).length

/-- Number of span-end operations in a trace. -/
def countEnds (ops : List SpanOp) : Nat :=
  (ops.filter fun op => match op with | SpanOp.endSpan => true | _ => false).length

/-- Status of the span after the trace: the last status set, Unset if none. -/
def finalStatus (ops : List SpanOp) : SpanStatus :=
  ops.foldl (fun acc op => match op with | SpanOp.setStatus s => s | _ => acc)
    SpanStatus.unset

/-- All attributes set on the span during the trace. -/
def attributesOf (ops : List SpanOp) : List (String × AttrValue) :=
  ops.filterMap fun op => match op with
    | SpanOp.setAttribute k v => some (k, v)
    | _ => none

/-- All exceptions recorded on the span during the trace. -/
def exceptionsOf (ops : List SpanOp) : List String :=
  ops.filterMap fun op => match op with
    | SpanOp.recordException m => some m
    | _ => none

/-- C1: for every call to get_user_by_id, whatever the global state and
whatever the wrapped operation returns, exactly one span is started and
exactly one span is ended: never zero ends, never two. -/
theorem span_opened_and_ended_exactly_once (st : GlobalState)
    (fetch : String → Except ServiceError User) (user_id : String) :
    countStarts (get_user_by_id st fetch user_id).ops = 1 ∧
    countEnds (get_user_by_id st fetch user_id).ops = 1 := by
  unfold get_user_by_id
  cases h : fetch user_id with
  | ok user => simp [countStarts, countEnds]
  | error e => simp [countStarts, countEnds]

/-- C2: whenever the wrapped operation fails with error e, the wrapper sets
the span status to Error with the message of e, records e as an exception on
the span, emits exactly one structured error log carrying the message of e,
and returns the failure e to the caller unchanged. -/
theorem failure_annotated_and_propagated (st : GlobalState)
    (fetch : String → Except ServiceError User) (user_id : String)
    (e : ServiceError) (h : fetch user_id = Except.error e) :
    finalStatus (get_user_by_id st fetch user_id).ops = SpanStatus.error e.message ∧
    exceptionsOf (get_user_by_id st fetch user_id).ops = [e.message] ∧
    (get_user_by_id st fetch user_id).errorLogs =
      [{ message := "Failed to fetch user", error_field := e.message }] ∧
    (get_user_by_id st fetch user_id).result = Except.error e := by
  unfold get_user_by_id
  rw [h]
  simp [finalStatus, exceptionsOf]

/-- Witness for C2 at a concrete failing operation and identifier. -/
theorem failure_annotated_and_propagated_witness :
    finalStatus (get_user_by_id uninitializedState
        (fun _ => Except.error { message := "not found" }) "123").ops =
      SpanStatus.error "not found" ∧
    exceptionsOf (get_user_by_id uninitializedState
        (fun _ => Except.error { message := "not found" }) "123").ops = ["not found"] ∧
    (get_user_by_id uninitializedState
        (fun _ => Except.error { message := "not found" }) "123").errorLogs =
      [{ message := "Failed to fetch user", error_field := "not found" }] ∧
    (get_user_by_id uninitializedState
        (fun _ => Except.error { message := "not found" }) "123").result =
      Except.error { message := "not found" } :=
  failure_annotated_and_propagated uninitializedState
    (fun _ => Except.error { message := "not found" }) "123" { message := "not found" } rfl

/-- C3: calling the wrapper with identifier "123" against the actual wrapped
operation fetch_user_from_db (which always succeeds) returns a user whose id
equals "123", and the span trace ends with status Ok and carries the
user.found attribute set to true, with the span ended exactly once. -/
theorem scenario_identifier_123_success (st : GlobalState) :
    (get_user_by_id st fetch_user_from_db "123").result =
      Except.ok { id := "123", name := "John Doe", email := "john@example.com" } ∧
    finalStatus (get_user_by_id st fetch_user_from_db "123").ops = SpanStatus.ok ∧
    ("user.found", AttrValue.bool true) ∈
      attributesOf (get_user_by_id st fetch_user_from_db "123").ops ∧
    countEnds (get_user_by_id st fetch_user_from_db "123").ops = 1 := by
  unfold get_user_by_id fetch_user_from_db
  simp [finalStatus, attributesOf, countEnds]

/-- C4: after a successful first call to init_tracer, a second call with new
arguments also returns Ok, and the tracer subsequently obtained from the
global state is backed by the provider built from the second call (endpoint
and resource of the second call): last-write-wins, no error. -/
theorem init_tracer_second_call_last_write_wins
    (env1 env2 : String → Option String) (st st1 : GlobalState)
    (n1 v1 d1 n2 v2 d2 : String)
    (_h : init_tracer env1 st n1 v1 d1 = Except.ok st1) :
    ∃ st2, init_tracer env2 st1 n2 v2 d2 = Except.ok st2 ∧
      global_tracer st2 "user-service" = Tracer.active
        { endpoint := (env2 "OTEL_EXPORTER_OTLP_ENDPOINT").getD default_otlp_endpoint
          resource :=
            { service_name := n2, service_version := v2, environment := d2 } } := by
  refine ⟨_, rfl, ?_⟩
  simp [init_tracer, set_tracer_provider, global_tracer]

/-- Witness for C4 at concrete arguments for both calls. -/
theorem init_tracer_second_call_last_write_wins_witness :
    ∃ st2, init_tracer (fun _ => none)
        { tracerProvider := some
            { endpoint := "http://localhost:4318/v1/traces"
              resource :=
                { service_name := "my-service", service_version := "1.0.0"
                  environment := "development" } }
          subscriberFilter := some "info" }
        "other-service" "2.0.0" "production" = Except.ok st2 ∧
      global_tracer st2 "user-service" = Tracer.active
        { endpoint := "http://localhost:4318/v1/traces"
          resource :=
            { service_name := "other-service", service_version := "2.0.0"
              environment := "production" } } :=
  init_tracer_second_call_last_write_wins (fun _ => none) (fun _ => none)
    uninitializedState
    { tracerProvider := some
        { endpoint := "http://localhost:4318/v1/traces"
          resource :=
            { service_name := "my-service", service_version := "1.0.0"
              environment := "development" } }
      subscriberFilter := some "info" }
    "my-service" "1.0.0" "development" "other-service" "2.0.0" "production" rfl

/-- C5: calling the wrapper in a process where bootstrap never ran obtains
the no-op tracer, proceeds normally (the result is exactly what the wrapped
operation returns) and still opens and ends exactly one span; being a total
function of the embedding, the call cannot panic or fail for lack of a
tracer. -/
theorem call_before_bootstrap_uses_noop_tracer
    (fetch : String → Except ServiceError User) (user_id : String) :
    (get_user_by_id uninitializedState fetch user_id).tracer = Tracer.noop ∧
    (get_user_by_id uninitializedState fetch user_id).result = fetch user_id ∧
    countStarts (get_user_by_id uninitializedState fetch user_id).ops = 1 ∧
    countEnds (get_user_by_id uninitializedState fetch user_id).ops = 1 := by
  unfold get_user_by_id
  cases h : fetch user_id with
  | ok user =>
      simp [global_tracer, uninitializedState, countStarts, countEnds]
  | error e =>
      simp [global_tracer, uninitializedState, countStarts, countEnds]

/-- C6: init_tracer installs a provider whose endpoint is the fixed default
when the OTEL_EXPORTER_OTLP_ENDPOINT configuration variable is absent, and
the value of that variable when it is present. -/
theorem endpoint_default_or_env (env : String → Option String) (st : GlobalState)
    (n v d : String) :
    (env "OTEL_EXPORTER_OTLP_ENDPOINT" = none →
      ∃ st1, init_tracer env st n v d = Except.ok st1 ∧
        st1.tracerProvider = some
          { endpoint := "http://localhost:4318/v1/traces"
            resource := { service_name := n, service_version := v, environment := d } }) ∧
    (∀ s, env "OTEL_EXPORTER_OTLP_ENDPOINT" = some s →
      ∃ st1, init_tracer env st n v d = Except.ok st1 ∧
        st1.tracerProvider = some
          { endpoint := s
            resource := { service_name := n, service_version := v, environment := d } }) := by
  constructor
  · intro h
    exact ⟨_, rfl, by simp [init_tracer, set_tracer_provider, h, default_otlp_endpoint]⟩
  · intro s h
    exact ⟨_, rfl, by simp [init_tracer, set_tracer_provider, h]⟩

/-- Witness for C6: one environment without the variable, one with it. -/
theorem endpoint_default_or_env_witness :
    (∃ st1, init_tracer (fun _ => none) uninitializedState
        "my-service" "1.0.0" "production" = Except.ok st1 ∧
      st1.tracerProvider = some
        { endpoint := "http://localhost:4318/v1/traces"
          resource :=
            { service_name := "my-service", service_version := "1.0.0"
              environment := "production" } }) ∧
    (∃ st1, init_tracer (fun _ => some "http://collector:4318/v1/traces")
        uninitializedState "my-service" "1.0.0" "production" = Except.ok st1 ∧
      st1.tracerProvider = some
        { endpoint := "http://collector:4318/v1/traces"
          resource :=
            { service_name := "my-service", service_version := "1.0.0"
              environment := "production" } }) :=
  ⟨(endpoint_default_or_env (fun _ => none) uninitializedState
      "my-service" "1.0.0" "production").1 rfl,
   (endpoint_default_or_env (fun _ => some "http://collector:4318/v1/traces")
      uninitializedState "my-service" "1.0.0" "production").2
      "http://collector:4318/v1/traces" rfl⟩

/-- C7: for every identifier string, including the empty string, the wrapper
imposes no validation of its own: it invokes the wrapped operation exactly
once with the identifier unchanged, and its result is exactly the wrapped
operation's result, so any failure can only originate from the wrapped
operation. -/
theorem wrapper_passes_identifier_unchanged (st : GlobalState)
    (fetch : String → Except ServiceError User) (user_id : String) :
    (get_user_by_id st fetch user_id).fetchCalls = [user_id] ∧
    (get_user_by_id st fetch user_id).result = fetch user_id := by
  unfold get_user_by_id
  cases h : fetch user_id with
  | ok user => simp
  | error e => simp

/-- C9: the wrapped operation fetch_user_from_db never fails: for every
identifier it returns Ok with that id and the fixed name and email; in
consequence get_user_by_id applied to it always returns Ok and never takes
the error branch (no error log is ever emitted). -/
theorem fetch_never_fails_wrapper_always_ok (st : GlobalState) (user_id : String) :
    fetch_user_from_db user_id =
      Except.ok { id := user_id, name := "John Doe", email := "john@example.com" } ∧
    (get_user_by_id st fetch_user_from_db user_id).result =
      Except.ok { id := user_id, name := "John Doe", email := "john@example.com" } ∧
    (get_user_by_id st fetch_user_from_db user_id).errorLogs = [] := by
  unfold get_user_by_id fetch_user_from_db
  simp

/-- C10: init_tracer on its first invocation (state where bootstrap never
ran) returns Ok for every configuration environment and every combination of
service name, version and environment argument; it never returns the Err
variant of its Result. -/
theorem init_tracer_first_call_returns_ok (env : String → Option String)
    (n v d : String) :
    ∃ st1, init_tracer env uninitializedState n v d = Except.ok st1 :=
  ⟨_, rfl⟩

end Obs
